import Mathlib

/-!
Verification of the rendezvous-ipv6 feature of the infrasim repository.

The development shallowly embeds the two Python programs

  * images/alpine/features/rendezvous-ipv6/files/rendezvousd.py
  * images/alpine/features/rendezvous-ipv6/files/rendezvous-client.py

into Lean.  Bytes are modelled as `Nat` (values below 256 in the running
programs), byte strings as `List Nat`.  The HMAC-SHA256 primitive used by
both programs is the same Python standard-library call
`hmac.new(key, msg, hashlib.sha256).digest()`; it is modelled as an
uninterpreted oracle `hmacSha256 : List Nat → List Nat → List Nat` passed
to each embedded function, so that theorems quantify over every possible
digest function (SHA-256 specific facts enter only through an explicit
digest-length hypothesis where they are needed).  `json.loads` composed
with `bytes.decode` is likewise modelled as an oracle returning a
`JsonResult`.  Side effects (log lines, file writes, callback execution,
interface-address changes) are modelled as explicit effect lists emitted
by the embedded functions.
-/

/-- Big-endian 8-byte encoding, the `Q` part of Python `struct.pack(">QI", epoch, slot)`
(rendezvousd.py line 110 and rendezvous-client.py line 57). -/
def beU64 (n : Nat) : List Nat :=
  [n / 2 ^ 56 % 256, n / 2 ^ 48 % 256, n / 2 ^ 40 % 256, n / 2 ^ 32 % 256,
   n / 2 ^ 24 % 256, n / 2 ^ 16 % 256, n / 2 ^ 8 % 256, n % 256]

/-- Big-endian 4-byte encoding, the `I` part of `struct.pack(">QI", ...)` and the
length prefix `struct.pack(">I", len(signature))` (rendezvousd.py line 198). -/
def beU32 (n : Nat) : List Nat :=
  [n / 2 ^ 24 % 256, n / 2 ^ 16 % 256, n / 2 ^ 8 % 256, n % 256]

/-- Big-endian 4-byte decoding, `struct.unpack(">I", data[:4])[0]`
(rendezvousd.py line 263, rendezvous-client.py line 180). -/
def beU32ToNat (bs : List Nat) : Nat :=
  bs.foldl (fun a b => a * 256 + b) 0

namespace RendezvousDaemon

/-- `RENDEZVOUS_PORT = 51821`, rendezvousd.py line 55. -/
def RENDEZVOUS_PORT : Nat := 51821

/-- Embedding of `RendezvousDaemon._derive_rendezvous_address` (rendezvousd.py
lines 107-125).  The result is the 16-byte IPv6 address handed to
`ipaddress.IPv6Address`; the subsequent `str(addr)` textual rendering is a
fixed injective function of these bytes and is applied identically by daemon
and client, so byte-level statements transfer to the printed form. -/
def deriveRendezvousAddress (hmacSha256 : List Nat → List Nat → List Nat)
    (meshSecret : List Nat) (epoch slot : Nat) : List Nat :=
  let message := beU64 epoch ++ beU32 slot
  let mac := hmacSha256 meshSecret message
  let iid := mac.take 8
  let iid2 := match iid with
    | [] => []
    | b :: rest => (b &&& 0xfd) :: rest
  [0xfe, 0x80, 0, 0, 0, 0, 0, 0] ++ iid2

/-- Embedding of `RendezvousDaemon._derive_port` (rendezvousd.py lines 127-129). -/
def derivePort (slot : Nat) : Nat :=
  RENDEZVOUS_PORT + slot

end RendezvousDaemon

namespace RendezvousClient

/-- `RENDEZVOUS_PORT = 51821`, rendezvous-client.py line 24. -/
def RENDEZVOUS_PORT : Nat := 51821

/-- Embedding of the client function `derive_rendezvous_address`
(rendezvous-client.py lines 55-62), returning the 16 address bytes passed to
`ipaddress.IPv6Address`. -/
def derive_rendezvous_address (hmacSha256 : List Nat → List Nat → List Nat)
    (mesh_secret : List Nat) (epoch slot : Nat) : List Nat :=
  let message := beU64 epoch ++ beU32 slot
  let mac := hmacSha256 mesh_secret message
  let iid := mac.take 8
  let iid2 := match iid with
    | [] => []
    | b :: rest => (b &&& 0xfd) :: rest
  [0xfe, 0x80, 0, 0, 0, 0, 0, 0] ++ iid2

end RendezvousClient

/-- Frame encoding used by `RendezvousDaemon._broadcast_descriptor`
(rendezvousd.py line 198) and the client `broadcast_descriptor`
(rendezvous-client.py line 125):
`struct.pack(">I", len(signature)) + signature + descriptor_json`. -/
def encodeFrame (signature descriptorBytes : List Nat) : List Nat :=
  beU32 signature.length ++ signature ++ descriptorBytes

/-- Frame decoding performed by `RendezvousDaemon._handle_peer_message`
(rendezvousd.py lines 260-268): reject when fewer than 4 bytes, read the
big-endian signature length, reject when the frame is shorter than
`4 + sig_len`, and split into signature and descriptor bytes. -/
def decodeFrame (data : List Nat) : Option (List Nat × List Nat) :=
  if data.length < 4 then none
  else
    let sigLen := beU32ToNat (data.take 4)
    if data.length < 4 + sigLen then none
    else some ((data.drop 4).take sigLen, data.drop (4 + sigLen))

theorem beU32_length (n : Nat) : (beU32 n).length = 4 := rfl

theorem beU32ToNat_beU32 (n : Nat) (h : n < 2 ^ 32) : beU32ToNat (beU32 n) = n := by
  simp only [beU32, beU32ToNat, List.foldl]
  omega

/-- C1: the daemon's `_derive_rendezvous_address` and the client's
`derive_rendezvous_address` are extensionally equal: for every HMAC oracle
(both programs invoke the same library primitive on the same key and
message) and for every `(mesh_secret, epoch, slot)`, the two functions
compute byte-identical rendezvous addresses. -/
theorem derive_daemon_client_agree
    (hmacSha256 : List Nat → List Nat → List Nat)
    (meshSecret : List Nat) (epoch slot : Nat) :
    RendezvousDaemon.deriveRendezvousAddress hmacSha256 meshSecret epoch slot =
      RendezvousClient.derive_rendezvous_address hmacSha256 meshSecret epoch slot := rfl

/-- C3: framing round-trip.  For every signature with length below `2^32`
and every descriptor byte string, decoding the encoded frame returns exactly
the signature and the descriptor bytes. -/
theorem codec_roundtrip (signature descriptorBytes : List Nat)
    (h : signature.length < 2 ^ 32) :
    decodeFrame (encodeFrame signature descriptorBytes) =
      some (signature, descriptorBytes) := by
  have hlen : (encodeFrame signature descriptorBytes).length =
      4 + signature.length + descriptorBytes.length := by
    simp [encodeFrame, beU32_length]
    omega
  have htake : (encodeFrame signature descriptorBytes).take 4 =
      beU32 signature.length := by
    have h4 : (beU32 signature.length).length = 4 := beU32_length _
    simp [encodeFrame, List.append_assoc, h4]
  have hdrop4 : (encodeFrame signature descriptorBytes).drop 4 =
      signature ++ descriptorBytes := by
    have h4 : (beU32 signature.length).length = 4 := beU32_length _
    simp [encodeFrame, List.append_assoc, h4]
  simp only [decodeFrame, hlen, htake, beU32ToNat_beU32 _ h, hdrop4]
  have h1 : ¬ 4 + signature.length + descriptorBytes.length < 4 := by omega
  have h2 : ¬ 4 + signature.length + descriptorBytes.length <
      4 + signature.length := by omega
  rw [if_neg h1, if_neg h2]
  have hsig : (signature ++ descriptorBytes).take signature.length = signature :=
    List.take_left _ _
  have hdesc : (encodeFrame signature descriptorBytes).drop (4 + signature.length) =
      descriptorBytes := by
    have hl : (beU32 signature.length ++ signature).length = 4 + signature.length := by
      simp [beU32_length]
    calc (encodeFrame signature descriptorBytes).drop (4 + signature.length)
        = ((beU32 signature.length ++ signature) ++ descriptorBytes).drop
            ((beU32 signature.length ++ signature).length) := by
          simp [encodeFrame, List.append_assoc, hl]
      _ = descriptorBytes := List.drop_left _ _
  rw [hsig]
  simp only [encodeFrame, List.append_assoc] at hdesc ⊢
  rw [hdesc]

/-- Witness for C3 at the concrete scenario S2: descriptor bytes are the
UTF-8 serialization of the JSON object with single field node_id = "n1"
(16 bytes), signature is the 3-byte string 00 01 02; the encoded frame is
23 bytes long and decodes back to the pair. -/
theorem codec_roundtrip_witness :
    ([0, 1, 2] : List Nat).length < 2 ^ 32 ∧
    (encodeFrame [0, 1, 2]
      [123, 34, 110, 111, 100, 101, 95, 105, 100, 34, 58, 34, 110, 49, 34, 125]).length = 23 ∧
    decodeFrame (encodeFrame [0, 1, 2]
      [123, 34, 110, 111, 100, 101, 95, 105, 100, 34, 58, 34, 110, 49, 34, 125]) =
      some ([0, 1, 2],
        [123, 34, 110, 111, 100, 101, 95, 105, 100, 34, 58, 34, 110, 49, 34, 125]) :=
  ⟨by decide, by decide,
    codec_roundtrip [0, 1, 2]
      [123, 34, 110, 111, 100, 101, 95, 105, 100, 34, 58, 34, 110, 49, 34, 125]
      (by decide)⟩

/-- Result of `descriptor_json.decode()` followed by `json.loads(...)` and
`descriptor.get("node_id")` (rendezvousd.py line 270-272, rendezvous-client.py
line 185).  `unicodeError` models `bytes.decode` raising `UnicodeDecodeError`;
`jsonError` models `json.loads` raising `json.JSONDecodeError`; `ok nodeId`
models a successfully parsed JSON object whose optional field node_id is
`nodeId` (`none` when the field is absent).  The composed library call is
modelled as an oracle `jsonLoads : List Nat → JsonResult` over which the
theorems quantify. -/
inductive JsonResult where
  | unicodeError : JsonResult
  | jsonError : JsonResult
  | ok : Option String → JsonResult
deriving DecidableEq

/-- Log levels of the Python `logging` calls appearing in
`_handle_peer_message`. -/
inductive LogLevel where
  | debug : LogLevel
  | info : LogLevel
  | warn : LogLevel
  | error : LogLevel
deriving DecidableEq

/-- Observable side effects requested by `_handle_peer_message`.  `logAt`
models a `log.*` call; `writeDescriptor p` models `open(p, "w")` followed by
`json.dump` (rendezvousd.py lines 291-292); `writeSignature p` models
`open(p, "wb")`/`write` (lines 295-296); `renameFile` is in the effect
vocabulary because the specification speaks of temp-file-plus-rename writes,
but the embedded code never emits it (there is no `os.rename`/`Path.rename`
call anywhere in rendezvousd.py); `runCallback cmd p` models the
`subprocess.run(self.peer_callback.split() + [str(descriptor_path)], ...)`
call (lines 301-305). -/
inductive Effect where
  | logAt : LogLevel → Effect
  | writeDescriptor : String → Effect
  | writeSignature : String → Effect
  | renameFile : String → String → Effect
  | runCallback : String → String → Effect
deriving DecidableEq

/-- The fields of `RendezvousDaemon` that `_handle_peer_message` reads or
writes: `selfNodeId` is `self.node_descriptor.get("node_id")` (`none` when
the local descriptor is missing or lacks the field), `knownPeers` is
`self.known_peers` (a Python set, modelled as a duplicate-free list),
`maxPeers` is `self.max_peers`, `peersDir` is `self.peers_dir`, and
`peerCallback` is `self.peer_callback` (the empty string is falsy in the
Python `if self.peer_callback:` check). -/
structure DaemonState where
  selfNodeId : Option String
  knownPeers : List String
  maxPeers : Nat
  peersDir : String
  peerCallback : String
deriving DecidableEq

/-- `self.peers_dir / f"<node_id>.json"` (rendezvousd.py line 288). -/
def descriptorFilePath (st : DaemonState) (nodeId : String) : String :=
  st.peersDir ++ "/" ++ nodeId ++ ".json"

/-- `self.peers_dir / f"<node_id>.json.sig"` (rendezvousd.py line 289). -/
def signatureFilePath (st : DaemonState) (nodeId : String) : String :=
  st.peersDir ++ "/" ++ nodeId ++ ".json.sig"

/-- Embedding of `RendezvousDaemon._handle_peer_message` (rendezvousd.py
lines 256-320), faithful to the Python control flow:

* fewer than 4 bytes: silent return (line 260-261);
* frame shorter than `4 + sig_len`: silent return (lines 263-265);
* `bytes.decode` failure: caught by the generic `except Exception` handler,
  which logs at error level (lines 319-320);
* `json.loads` failure: caught by `except json.JSONDecodeError`, logged at
  warn level (lines 317-318);
* missing or empty node_id (Python falsiness of `descriptor.get("node_id")`):
  warn log and return (lines 272-275);
* node_id equal to our own: silent return (lines 277-279);
* node_id already known: silent return (lines 281-283);
* otherwise: info log, write the descriptor file, write the signature file
  when the signature is non-empty, run the peer callback when configured,
  insert the node_id into `known_peers`, and when the set now exceeds
  `max_peers` evict one element via `set.pop()` (lines 285-315).  `set.pop`
  removes an unspecified element; the embedding removes the last element of
  the list, which is one faithful resolution of that nondeterminism (the
  claims checked here depend only on the cardinality). -/
def handlePeerMessage (jsonLoads : List Nat → JsonResult)
    (st : DaemonState) (data : List Nat) : DaemonState × List Effect :=
  if data.length < 4 then (st, [])
  else
    let sigLen := beU32ToNat (data.take 4)
    if data.length < 4 + sigLen then (st, [])
    else
      let signature := (data.drop 4).take sigLen
      let descriptorBytes := data.drop (4 + sigLen)
      match jsonLoads descriptorBytes with
      | JsonResult.unicodeError => (st, [Effect.logAt LogLevel.error])
      | JsonResult.jsonError => (st, [Effect.logAt LogLevel.warn])
      | JsonResult.ok none => (st, [Effect.logAt LogLevel.warn])
      | JsonResult.ok (some nodeId) =>
        if nodeId = "" then (st, [Effect.logAt LogLevel.warn])
        else if st.selfNodeId = some nodeId then (st, [])
        else if nodeId ∈ st.knownPeers then (st, [])
        else
          let effects :=
            [Effect.logAt LogLevel.info,
             Effect.writeDescriptor (descriptorFilePath st nodeId)] ++
            (if signature ≠ [] then
              [Effect.writeSignature (signatureFilePath st nodeId)] else []) ++
            (if st.peerCallback ≠ "" then
              [Effect.runCallback st.peerCallback (descriptorFilePath st nodeId)]
             else [])
          let peers1 := nodeId :: st.knownPeers
          let peers2 := if peers1.length > st.maxPeers then peers1.dropLast else peers1
          (DaemonState.mk st.selfNodeId peers2 st.maxPeers st.peersDir st.peerCallback,
           effects)

/-- Sequential processing of a list of received datagrams by
`_handle_peer_message`, as performed by the receive loop of
`_listen_for_peers` (rendezvousd.py lines 237-245). -/
def processFrames (jsonLoads : List Nat → JsonResult)
    (st : DaemonState) : List (List Nat) → DaemonState × List Effect
  | [] => (st, [])
  | data :: rest =>
    let r := handlePeerMessage jsonLoads st data
    let r2 := processFrames jsonLoads r.1 rest
    (r2.1, r.2 ++ r2.2)

/-- The node_id character set required by the specification:
`[A-Za-z0-9_.-]+`. -/
def validNodeIdChar (c : Char) : Bool :=
  (65 ≤ c.toNat && c.toNat ≤ 90) || (97 ≤ c.toNat && c.toNat ≤ 122) ||
  (48 ≤ c.toNat && c.toNat ≤ 57) || c.toNat = 95 || c.toNat = 46 || c.toNat = 45

/-- A node_id matches `[A-Za-z0-9_.-]+` exactly when it is non-empty and
every character is in the allowed set. -/
def validNodeId (s : String) : Bool :=
  !(s = "") && s.toList.all validNodeIdChar

/-- True when the effect is a file write, a rename or a callback execution
(anything that touches disk or runs a process, as opposed to a log line). -/
def isWriteOrCallback : Effect → Bool
  | Effect.logAt _ => false
  | Effect.writeDescriptor _ => true
  | Effect.writeSignature _ => true
  | Effect.renameFile _ _ => true
  | Effect.runCallback _ _ => true

/-- Whether an effect list touches disk or runs a process. -/
def hasWriteOrCallback (l : List Effect) : Bool :=
  l.any isWriteOrCallback

/-- Whether an effect list contains a file rename. -/
def hasRename (l : List Effect) : Bool :=
  l.any fun e => match e with
    | Effect.renameFile _ _ => true
    | _ => false

/-- C2: for every HMAC oracle whose digest on the packed `(epoch, slot)`
message has the SHA-256 length of 32 bytes, and for every
`(secret, epoch, slot)`: the derivation is deterministic (repeated calls
return the same address, and the port function is a function of the slot),
the derived address is a well-formed 16-byte IPv6 address lying in
`fe80::/10` (byte 0 is `0xfe` and the top two bits of byte 1 are `10`),
the universal bit (value `0x02`) of byte 8 — the first byte of the
interface identifier — is cleared, and the derived port is `51821 + slot`. -/
theorem derive_structural
    (hmacSha256 : List Nat → List Nat → List Nat)
    (meshSecret : List Nat) (epoch slot : Nat)
    (hdigest : (hmacSha256 meshSecret (beU64 epoch ++ beU32 slot)).length = 32) :
    RendezvousDaemon.deriveRendezvousAddress hmacSha256 meshSecret epoch slot =
      RendezvousDaemon.deriveRendezvousAddress hmacSha256 meshSecret epoch slot ∧
    (RendezvousDaemon.deriveRendezvousAddress hmacSha256 meshSecret epoch slot).length = 16 ∧
    (RendezvousDaemon.deriveRendezvousAddress hmacSha256 meshSecret epoch slot).getD 0 0 = 0xfe ∧
    (RendezvousDaemon.deriveRendezvousAddress hmacSha256 meshSecret epoch slot).getD 1 0 &&& 0xc0 = 0x80 ∧
    (RendezvousDaemon.deriveRendezvousAddress hmacSha256 meshSecret epoch slot).getD 8 0 &&& 0x02 = 0 ∧
    RendezvousDaemon.derivePort slot = 51821 + slot := by
  rcases hm : hmacSha256 meshSecret (beU64 epoch ++ beU32 slot) with _ | ⟨b, rest⟩
  · rw [hm] at hdigest
    simp at hdigest
  · rw [hm] at hdigest
    have hrest : rest.length = 31 := by
      simp at hdigest
      omega
    have haddr : RendezvousDaemon.deriveRendezvousAddress hmacSha256 meshSecret epoch slot =
        0xfe :: 0x80 :: 0 :: 0 :: 0 :: 0 :: 0 :: 0 :: (b &&& 0xfd) :: rest.take 7 := by
      simp only [RendezvousDaemon.deriveRendezvousAddress, hm]
      rfl
    refine ⟨rfl, ?_, ?_, ?_, ?_, rfl⟩
    · rw [haddr]
      simp [List.length_take, hrest]
    · rw [haddr]
      rfl
    · rw [haddr]
      show (128 : Nat) &&& 0xc0 = 0x80
      decide
    · rw [haddr]
      show (b &&& 0xfd) &&& 0x02 = 0
      rw [Nat.and_assoc, (by decide : (0xfd &&& 0x02 : Nat) = 0), Nat.and_zero]

/-- A fixed stand-in digest function with 32-byte output, used only to
instantiate oracle-parameterized theorems at a concrete point. -/
def sha256StubDigest : List Nat → List Nat → List Nat :=
  fun _ _ => List.replicate 32 7

/-- Witness for C2 at a concrete point: the stub digest oracle satisfies the
32-byte length hypothesis at secret `[1]`, epoch 27764400, slot 0, and the
structural conclusions hold there. -/
theorem derive_structural_witness :
    (sha256StubDigest [1] (beU64 27764400 ++ beU32 0)).length = 32 ∧
    ((RendezvousDaemon.deriveRendezvousAddress sha256StubDigest [1] 27764400 0 =
        RendezvousDaemon.deriveRendezvousAddress sha256StubDigest [1] 27764400 0) ∧
      (RendezvousDaemon.deriveRendezvousAddress sha256StubDigest [1] 27764400 0).length = 16 ∧
      (RendezvousDaemon.deriveRendezvousAddress sha256StubDigest [1] 27764400 0).getD 0 0 = 0xfe ∧
      (RendezvousDaemon.deriveRendezvousAddress sha256StubDigest [1] 27764400 0).getD 1 0 &&& 0xc0 = 0x80 ∧
      (RendezvousDaemon.deriveRendezvousAddress sha256StubDigest [1] 27764400 0).getD 8 0 &&& 0x02 = 0 ∧
      RendezvousDaemon.derivePort 0 = 51821 + 0) :=
  ⟨by decide, derive_structural sha256StubDigest [1] 27764400 0 (by decide)⟩

/-- UTF-8 bytes of the JSON object whose single field node_id has value
"n1" (scenario S2 of the specification): 16 bytes. -/
def descN1 : List Nat :=
  [123, 34, 110, 111, 100, 101, 95, 105, 100, 34, 58, 34, 110, 49, 34, 125]

/-- UTF-8 bytes of the JSON object whose node_id is "n2". -/
def descN2 : List Nat :=
  [123, 34, 110, 111, 100, 101, 95, 105, 100, 34, 58, 34, 110, 50, 34, 125]

/-- UTF-8 bytes of the JSON object whose node_id is "n3". -/
def descN3 : List Nat :=
  [123, 34, 110, 111, 100, 101, 95, 105, 100, 34, 58, 34, 110, 51, 34, 125]

/-- UTF-8 bytes of the JSON object whose node_id is "../evil" (21 bytes):
a syntactically valid descriptor whose node_id escapes the peers
directory when spliced into a file path. -/
def descEvil : List Nat :=
  [123, 34, 110, 111, 100, 101, 95, 105, 100, 34, 58, 34, 46, 46, 47, 101,
   118, 105, 108, 34, 125]

/-- A concrete instance of the `jsonLoads` oracle, agreeing with Python
`bytes.decode` followed by `json.loads` on the fixture byte strings used in
the witnesses and counterexamples below: each fixture is valid UTF-8 JSON
for an object whose node_id field is the indicated string.  All other byte
strings are mapped to `jsonError`; the concrete statements below only ever
evaluate this oracle on the fixtures. -/
def parseFixture (bs : List Nat) : JsonResult :=
  if bs = descN1 then JsonResult.ok (some "n1")
  else if bs = descN2 then JsonResult.ok (some "n2")
  else if bs = descN3 then JsonResult.ok (some "n3")
  else if bs = descEvil then JsonResult.ok (some "../evil")
  else JsonResult.jsonError

/-- The frame carrying descriptor `descN1` with an empty signature. -/
def frameN1 : List Nat := encodeFrame [] descN1

/-- The frame carrying descriptor `descN2` with an empty signature. -/
def frameN2 : List Nat := encodeFrame [] descN2

/-- The frame carrying descriptor `descN3` with an empty signature. -/
def frameN3 : List Nat := encodeFrame [] descN3

/-- The frame carrying descriptor `descEvil` with an empty signature. -/
def frameEvil : List Nat := encodeFrame [] descEvil

theorem handle_preserves_maxPeers (jsonLoads : List Nat → JsonResult)
    (st : DaemonState) (data : List Nat) :
    (handlePeerMessage jsonLoads st data).1.maxPeers = st.maxPeers := by
  simp only [handlePeerMessage]
  (repeat' split) <;> rfl

theorem handle_knownPeers_bound (jsonLoads : List Nat → JsonResult)
    (st : DaemonState) (data : List Nat)
    (h : st.knownPeers.length ≤ st.maxPeers) :
    (handlePeerMessage jsonLoads st data).1.knownPeers.length ≤ st.maxPeers := by
  simp only [handlePeerMessage]
  (repeat' split) <;>
    first
      | exact h
      | (simp only [List.length_dropLast, List.length_cons] at *; omega)

/-- C7: the cardinality of `known_peers` never exceeds `max_peers`.  For
every JSON oracle, every starting state satisfying the bound and every
sequence of received frames, the bound still holds after the Peer Learner
has processed each frame in turn. -/
theorem known_peers_bounded (jsonLoads : List Nat → JsonResult)
    (st : DaemonState) (frames : List (List Nat))
    (h : st.knownPeers.length ≤ st.maxPeers) :
    (processFrames jsonLoads st frames).1.knownPeers.length ≤ st.maxPeers := by
  induction frames generalizing st with
  | nil => exact h
  | cons data rest ih =>
    simp only [processFrames]
    have h1 := handle_knownPeers_bound jsonLoads st data h
    have h2 := handle_preserves_maxPeers jsonLoads st data
    have h3 := ih (handlePeerMessage jsonLoads st data).1 (by rw [h2]; exact h1)
    rw [h2] at h3
    exact h3

/-- Witness for C7 at the concrete scenario S5: `max_peers = 2`, unique
peers n1, n2, n3 injected in order into an initially empty state; the bound
holds, and moreover exactly 2 peers remain. -/
theorem known_peers_bounded_witness :
    (DaemonState.mk (some "me") [] 2 "peers" "").knownPeers.length ≤
      (DaemonState.mk (some "me") [] 2 "peers" "").maxPeers ∧
    (processFrames parseFixture (DaemonState.mk (some "me") [] 2 "peers" "")
      [frameN1, frameN2, frameN3]).1.knownPeers.length ≤ 2 ∧
    (processFrames parseFixture (DaemonState.mk (some "me") [] 2 "peers" "")
      [frameN1, frameN2, frameN3]).1.knownPeers.length = 2 :=
  ⟨by decide,
   known_peers_bounded parseFixture (DaemonState.mk (some "me") [] 2 "peers" "")
     [frameN1, frameN2, frameN3] (by decide),
   by decide⟩

/-- C8: a well-formed frame whose node_id equals the local node's own
node_id is silently dropped: the handler leaves the state (in particular
`known_peers`) unchanged and emits no effect at all — no file write, no
callback, not even a log line. -/
theorem self_frame_dropped (jsonLoads : List Nat → JsonResult)
    (st : DaemonState) (data : List Nat) (nodeId : String)
    (h1 : ¬ data.length < 4)
    (h2 : ¬ data.length < 4 + beU32ToNat (data.take 4))
    (h3 : jsonLoads (data.drop (4 + beU32ToNat (data.take 4))) =
      JsonResult.ok (some nodeId))
    (h4 : ¬ nodeId = "")
    (h5 : st.selfNodeId = some nodeId) :
    handlePeerMessage jsonLoads st data = (st, []) := by
  simp [handlePeerMessage, h1, h2, h3, h4, h5]

/-- Witness for C8: a daemon whose own node_id is "n1" receives the frame
carrying descriptor n1; the handler returns the state unchanged with no
effects. -/
theorem self_frame_dropped_witness :
    (¬ frameN1.length < 4) ∧
    (¬ frameN1.length < 4 + beU32ToNat (frameN1.take 4)) ∧
    parseFixture (frameN1.drop (4 + beU32ToNat (frameN1.take 4))) =
      JsonResult.ok (some "n1") ∧
    (¬ "n1" = "") ∧
    (DaemonState.mk (some "n1") ["n7"] 64 "peers" "cb").selfNodeId = some "n1" ∧
    handlePeerMessage parseFixture
      (DaemonState.mk (some "n1") ["n7"] 64 "peers" "cb") frameN1 =
      (DaemonState.mk (some "n1") ["n7"] 64 "peers" "cb", []) :=
  ⟨by decide, by decide, by decide, by decide, rfl,
   self_frame_dropped parseFixture
     (DaemonState.mk (some "n1") ["n7"] 64 "peers" "cb") frameN1 "n1"
     (by decide) (by decide) (by decide) (by decide) rfl⟩

theorem handle_write_path_effects (jsonLoads : List Nat → JsonResult)
    (st : DaemonState) (data : List Nat) (nodeId : String)
    (h1 : ¬ data.length < 4)
    (h2 : ¬ data.length < 4 + beU32ToNat (data.take 4))
    (h3 : jsonLoads (data.drop (4 + beU32ToNat (data.take 4))) =
      JsonResult.ok (some nodeId))
    (h4 : ¬ nodeId = "")
    (h5 : ¬ st.selfNodeId = some nodeId)
    (h6 : nodeId ∉ st.knownPeers) :
    (handlePeerMessage jsonLoads st data).2 =
      [Effect.logAt LogLevel.info,
       Effect.writeDescriptor (descriptorFilePath st nodeId)] ++
      (if (data.drop 4).take (beU32ToNat (data.take 4)) ≠ [] then
        [Effect.writeSignature (signatureFilePath st nodeId)] else []) ++
      (if st.peerCallback ≠ "" then
        [Effect.runCallback st.peerCallback (descriptorFilePath st nodeId)]
       else []) := by
  simp [handlePeerMessage, h1, h2, h3, h4, h5, h6]

/-- C4 counterexample: the node_id "../evil" does not match the required
charset `[A-Za-z0-9_.-]+`, yet the Peer Learner emits a descriptor file
write for it — into `peers/../evil.json`, a path that escapes the peers
directory.  `_handle_peer_message` contains no charset validation at all. -/
theorem learner_writes_invalid_node_id :
    validNodeId "../evil" = false ∧
    Effect.writeDescriptor "peers/../evil.json" ∈
      (handlePeerMessage parseFixture
        (DaemonState.mk (some "me") [] 64 "peers" "") frameEvil).2 := by
  constructor
  · decide
  · decide

/-- C4 amended: the Peer Learner validates only non-emptiness of node_id.
Every well-formed frame whose node_id is non-empty, different from the
local node_id and not yet known leads to a descriptor file write at
`<peers_dir>/<node_id>.json` with the raw node_id spliced into the path,
regardless of whether the node_id matches `[A-Za-z0-9_.-]+`. -/
theorem learner_no_charset_validation (jsonLoads : List Nat → JsonResult)
    (st : DaemonState) (data : List Nat) (nodeId : String)
    (h1 : ¬ data.length < 4)
    (h2 : ¬ data.length < 4 + beU32ToNat (data.take 4))
    (h3 : jsonLoads (data.drop (4 + beU32ToNat (data.take 4))) =
      JsonResult.ok (some nodeId))
    (h4 : ¬ nodeId = "")
    (h5 : ¬ st.selfNodeId = some nodeId)
    (h6 : nodeId ∉ st.knownPeers) :
    Effect.writeDescriptor (descriptorFilePath st nodeId) ∈
      (handlePeerMessage jsonLoads st data).2 := by
  rw [handle_write_path_effects jsonLoads st data nodeId h1 h2 h3 h4 h5 h6]
  simp

/-- Witness for the amended C4 at the traversal fixture: all side
conditions hold for node_id "../evil", which fails the charset, and the
descriptor write is emitted. -/
theorem learner_no_charset_validation_witness :
    validNodeId "../evil" = false ∧
    (¬ frameEvil.length < 4) ∧
    (¬ frameEvil.length < 4 + beU32ToNat (frameEvil.take 4)) ∧
    parseFixture (frameEvil.drop (4 + beU32ToNat (frameEvil.take 4))) =
      JsonResult.ok (some "../evil") ∧
    (¬ ("../evil" : String) = "") ∧
    (¬ (DaemonState.mk (some "me") ["n9"] 64 "peers" "cb").selfNodeId =
      some "../evil") ∧
    ("../evil" ∉ (DaemonState.mk (some "me") ["n9"] 64 "peers" "cb").knownPeers) ∧
    Effect.writeDescriptor
        (descriptorFilePath (DaemonState.mk (some "me") ["n9"] 64 "peers" "cb") "../evil") ∈
      (handlePeerMessage parseFixture
        (DaemonState.mk (some "me") ["n9"] 64 "peers" "cb") frameEvil).2 :=
  ⟨by decide, by decide, by decide, by decide, by decide, by decide, by decide,
   learner_no_charset_validation parseFixture
     (DaemonState.mk (some "me") ["n9"] 64 "peers" "cb") frameEvil "../evil"
     (by decide) (by decide) (by decide) (by decide) (by decide) (by decide)⟩

/-- C5 counterexample: a concrete successful peer persistence.  The emitted
effects are exactly an info log followed by a direct write of the final
path `peers/n2.json`; there is no temporary-file write and no rename, so
the write is not performed atomically via temp-file-plus-rename. -/
theorem learner_write_not_atomic :
    (handlePeerMessage parseFixture
      (DaemonState.mk (some "me") [] 64 "peers" "") frameN2).2 =
      [Effect.logAt LogLevel.info, Effect.writeDescriptor "peers/n2.json"] ∧
    hasRename (handlePeerMessage parseFixture
      (DaemonState.mk (some "me") [] 64 "peers" "") frameN2).2 = false := by
  constructor
  · decide
  · decide

/-- C5 amended: every persisted peer descriptor write opens the final path
`<peers_dir>/<node_id>.json` directly and writes it in place; no rename
(and hence no temp-file-plus-rename pattern) occurs anywhere in the
handler's effects, so a concurrent reader may observe a half-written
file. -/
theorem learner_write_direct (jsonLoads : List Nat → JsonResult)
    (st : DaemonState) (data : List Nat) (nodeId : String)
    (h1 : ¬ data.length < 4)
    (h2 : ¬ data.length < 4 + beU32ToNat (data.take 4))
    (h3 : jsonLoads (data.drop (4 + beU32ToNat (data.take 4))) =
      JsonResult.ok (some nodeId))
    (h4 : ¬ nodeId = "")
    (h5 : ¬ st.selfNodeId = some nodeId)
    (h6 : nodeId ∉ st.knownPeers) :
    Effect.writeDescriptor (descriptorFilePath st nodeId) ∈
      (handlePeerMessage jsonLoads st data).2 ∧
    hasRename (handlePeerMessage jsonLoads st data).2 = false := by
  rw [handle_write_path_effects jsonLoads st data nodeId h1 h2 h3 h4 h5 h6]
  constructor
  · simp
  · simp only [hasRename, List.any_append, List.any_cons, List.any_nil]
    split <;> split <;> rfl

/-- Witness for the amended C5 at a concrete frame (node n3, non-empty
signature, configured callback): the descriptor write targets the final
path directly and no rename effect is present. -/
theorem learner_write_direct_witness :
    (¬ (encodeFrame [9] descN3).length < 4) ∧
    (¬ (encodeFrame [9] descN3).length <
      4 + beU32ToNat ((encodeFrame [9] descN3).take 4)) ∧
    parseFixture ((encodeFrame [9] descN3).drop
      (4 + beU32ToNat ((encodeFrame [9] descN3).take 4))) =
      JsonResult.ok (some "n3") ∧
    (¬ ("n3" : String) = "") ∧
    (¬ (DaemonState.mk (some "me") [] 64 "peers" "cb").selfNodeId = some "n3") ∧
    (("n3" : String) ∉ (DaemonState.mk (some "me") [] 64 "peers" "cb").knownPeers) ∧
    (Effect.writeDescriptor
        (descriptorFilePath (DaemonState.mk (some "me") [] 64 "peers" "cb") "n3") ∈
      (handlePeerMessage parseFixture
        (DaemonState.mk (some "me") [] 64 "peers" "cb") (encodeFrame [9] descN3)).2 ∧
    hasRename (handlePeerMessage parseFixture
      (DaemonState.mk (some "me") [] 64 "peers" "cb") (encodeFrame [9] descN3)).2 = false) :=
  ⟨by decide, by decide, by decide, by decide, by decide, by decide,
   learner_write_direct parseFixture
     (DaemonState.mk (some "me") [] 64 "peers" "cb") (encodeFrame [9] descN3) "n3"
     (by decide) (by decide) (by decide) (by decide) (by decide) (by decide)⟩

/-- C6 counterexample: the 3-byte datagram 00 00 00 of scenario S6 is
dropped, but silently — the handler returns the state unchanged with an
empty effect list, so no log message at warn level (nor any other level)
is emitted, contrary to the claim that malformed frames are logged at
warn. -/
theorem malformed_silent_drop :
    handlePeerMessage parseFixture
      (DaemonState.mk (some "me") ["n5"] 64 "peers" "cb") [0, 0, 0] =
      (DaemonState.mk (some "me") ["n5"] 64 "peers" "cb", []) := by
  decide

/-- C6 amended: for every malformed inbound datagram — shorter than 4
bytes, or declaring a signature length with `4 + sig_len` exceeding the
frame length, or whose trailing bytes are not valid UTF-8 (logged at error
level via the generic exception handler) or not valid JSON (logged at warn
level) — the state (in particular `known_peers`) is unchanged, no file is
written and no callback runs; frames failing the two length checks are
dropped silently with no log at all, frames whose trailing bytes fail
UTF-8 decoding produce exactly one error-level log line (the generic
exception handler), and frames whose trailing bytes fail JSON parsing
produce exactly one warn-level log line.  The handler is a total function:
every malformed input is handled and the daemon continues. -/
theorem malformed_frame_dropped (jsonLoads : List Nat → JsonResult)
    (st : DaemonState) (data : List Nat)
    (h : data.length < 4 ∨ data.length < 4 + beU32ToNat (data.take 4) ∨
      jsonLoads (data.drop (4 + beU32ToNat (data.take 4))) = JsonResult.unicodeError ∨
      jsonLoads (data.drop (4 + beU32ToNat (data.take 4))) = JsonResult.jsonError) :
    (handlePeerMessage jsonLoads st data).1 = st ∧
    hasWriteOrCallback (handlePeerMessage jsonLoads st data).2 = false ∧
    ((data.length < 4 ∨ data.length < 4 + beU32ToNat (data.take 4)) →
      (handlePeerMessage jsonLoads st data).2 = []) ∧
    (¬ data.length < 4 → ¬ data.length < 4 + beU32ToNat (data.take 4) →
      jsonLoads (data.drop (4 + beU32ToNat (data.take 4))) = JsonResult.unicodeError →
      (handlePeerMessage jsonLoads st data).2 = [Effect.logAt LogLevel.error]) ∧
    (¬ data.length < 4 → ¬ data.length < 4 + beU32ToNat (data.take 4) →
      jsonLoads (data.drop (4 + beU32ToNat (data.take 4))) = JsonResult.jsonError →
      (handlePeerMessage jsonLoads st data).2 = [Effect.logAt LogLevel.warn]) := by
  by_cases h1 : data.length < 4
  · simp [handlePeerMessage, h1, hasWriteOrCallback]
  · by_cases h2 : data.length < 4 + beU32ToNat (data.take 4)
    · simp [handlePeerMessage, h1, h2, hasWriteOrCallback]
    · rcases h with h | h | h | h
      · exact absurd h h1
      · exact absurd h h2
      · simp [handlePeerMessage, h1, h2, h, hasWriteOrCallback, isWriteOrCallback]
      · simp [handlePeerMessage, h1, h2, h, hasWriteOrCallback, isWriteOrCallback]

/-- A concrete oracle instance extending `parseFixture` with one input on
which `bytes.decode` fails: the single byte 0xFF is not valid UTF-8 in any
position, so Python raises `UnicodeDecodeError` there. -/
def parseFixtureUtf8Err : List Nat → JsonResult :=
  fun bs => if bs = [255] then JsonResult.unicodeError else parseFixture bs

/-- Witness for the amended C6, exercising all three malformed flavours:
the 3-byte datagram of scenario S6 is dropped silently with the state
unchanged and nothing written; a frame whose descriptor bytes are the
single byte 0x7B (valid UTF-8, invalid JSON) yields exactly one warn-level
log line; a frame whose descriptor bytes are the single byte 0xFF (invalid
UTF-8) yields exactly one error-level log line. -/
theorem malformed_frame_dropped_witness :
    (([0, 0, 0] : List Nat).length < 4 ∧
      (handlePeerMessage parseFixture
          (DaemonState.mk (some "me") [] 64 "peers" "") [0, 0, 0]).1 =
        DaemonState.mk (some "me") [] 64 "peers" "" ∧
      hasWriteOrCallback (handlePeerMessage parseFixture
        (DaemonState.mk (some "me") [] 64 "peers" "") [0, 0, 0]).2 = false ∧
      (handlePeerMessage parseFixture
        (DaemonState.mk (some "me") [] 64 "peers" "") [0, 0, 0]).2 = []) ∧
    (parseFixture ((encodeFrame [] [123]).drop
        (4 + beU32ToNat ((encodeFrame [] [123]).take 4))) = JsonResult.jsonError ∧
      (handlePeerMessage parseFixture
        (DaemonState.mk (some "me") [] 64 "peers" "") (encodeFrame [] [123])).2 =
        [Effect.logAt LogLevel.warn]) ∧
    (parseFixtureUtf8Err ((encodeFrame [] [255]).drop
        (4 + beU32ToNat ((encodeFrame [] [255]).take 4))) = JsonResult.unicodeError ∧
      (handlePeerMessage parseFixtureUtf8Err
        (DaemonState.mk (some "me") [] 64 "peers" "") (encodeFrame [] [255])).2 =
        [Effect.logAt LogLevel.error]) :=
  ⟨⟨by decide,
    (malformed_frame_dropped parseFixture
      (DaemonState.mk (some "me") [] 64 "peers" "") [0, 0, 0]
      (Or.inl (by decide))).1,
    (malformed_frame_dropped parseFixture
      (DaemonState.mk (some "me") [] 64 "peers" "") [0, 0, 0]
      (Or.inl (by decide))).2.1,
    (malformed_frame_dropped parseFixture
      (DaemonState.mk (some "me") [] 64 "peers" "") [0, 0, 0]
      (Or.inl (by decide))).2.2.1 (Or.inl (by decide))⟩,
   ⟨by decide,
    (malformed_frame_dropped parseFixture
      (DaemonState.mk (some "me") [] 64 "peers" "") (encodeFrame [] [123])
      (Or.inr (Or.inr (Or.inr (by decide))))).2.2.2.2
      (by decide) (by decide) (by decide)⟩,
   ⟨by decide,
    (malformed_frame_dropped parseFixtureUtf8Err
      (DaemonState.mk (some "me") [] 64 "peers" "") (encodeFrame [] [255])
      (Or.inr (Or.inr (Or.inl (by decide))))).2.2.2.1
      (by decide) (by decide) (by decide)⟩⟩

/-- Interface-address operations observable on the daemon's network
interface during one slot. -/
inductive BinderEffect where
  | addrAdded : BinderEffect
  | addrRemoved : BinderEffect
deriving DecidableEq

/-- Embedding of the interface-address handling of
`RendezvousDaemon._listen_for_peers` (rendezvousd.py lines 217-254):

* `addOk` is the return value of `self._add_address(addr)` (line 221); when
  it is false the function returns at once and the address was not put on
  the interface;
* `raisesAfterAdd` is true when any statement between the successful
  `_add_address` and the final `_remove_address` raises — socket creation,
  `setsockopt`, `setblocking`, `bind` (line 230, e.g. while duplicate
  address detection is still running) or `select` (exceptions inside the
  receive loop body are caught by the inner handler at lines 244-245 and do
  not escape).  Such an exception is caught by the enclosing `except` at
  lines 253-254, which only logs; the body has no `finally`, so
  `self._remove_address(addr)` at line 251 is reached only on the
  exception-free path. -/
def listenForPeersBinder (addOk raisesAfterAdd : Bool) : List BinderEffect :=
  if !addOk then []
  else if raisesAfterAdd then [BinderEffect.addrAdded]
  else [BinderEffect.addrAdded, BinderEffect.addrRemoved]

/-- C9 counterexample: when the rendezvous address has been added and an
exception is then raised (for example a `bind` failure), the slot ends with
the address still configured: the effect trace is exactly one `addrAdded`
and contains no `addrRemoved`, so bind and unbind are not paired on this
exit path. -/
theorem listen_unbind_missing :
    listenForPeersBinder true true = [BinderEffect.addrAdded] ∧
    BinderEffect.addrRemoved ∉ listenForPeersBinder true true := by
  constructor
  · decide
  · decide

/-- C9 amended: bind and unbind are paired on the normal exit path only.
The address is removed exactly when it was successfully added and no
exception was raised between the add and the remove; on the exception path
the `except` handler only logs and the address is left on the interface
(and when the add itself fails, nothing was added and nothing is
removed). -/
theorem listen_unbind_paths (addOk raisesAfterAdd : Bool) :
    (BinderEffect.addrRemoved ∈ listenForPeersBinder addOk raisesAfterAdd ↔
      addOk = true ∧ raisesAfterAdd = false) ∧
    (BinderEffect.addrAdded ∈ listenForPeersBinder addOk raisesAfterAdd ↔
      addOk = true) := by
  cases addOk <;> cases raisesAfterAdd <;> simp [listenForPeersBinder]

namespace RendezvousClient

/-- Embedding of the receive loop of `discover_peers` (rendezvous-client.py
lines 172-194) over the sequence of datagrams received during the timeout
window.  Per datagram: frames shorter than 4 bytes or shorter than
`4 + sig_len` are skipped (`continue`, lines 177-182); `json.loads` failure
is skipped via `except json.JSONDecodeError` (lines 193-194); a
`UnicodeDecodeError` from `descriptor_json.decode()` is caught by no
handler in the function and aborts discovery (modelled as `Except.error`);
a successfully parsed descriptor is appended to `peers` unconditionally
(line 189) — the result records each descriptor's node_id field (`none`
when absent) in arrival order. -/
def discover_peers (jsonLoads : List Nat → JsonResult) :
    List (List Nat) → Except Unit (List (Option String))
  | [] => Except.ok []
  | data :: rest =>
    if data.length < 4 then discover_peers jsonLoads rest
    else
      let sigLen := beU32ToNat (data.take 4)
      if data.length < 4 + sigLen then discover_peers jsonLoads rest
      else
        match jsonLoads (data.drop (4 + sigLen)) with
        | JsonResult.unicodeError => Except.error ()
        | JsonResult.jsonError => discover_peers jsonLoads rest
        | JsonResult.ok nodeId =>
          (discover_peers jsonLoads rest).map (fun peers => nodeId :: peers)

/-- Whether a datagram passes the length checks and JSON decoding of the
`discover_peers` loop, i.e. contributes an element to the returned list. -/
def decodesOk (jsonLoads : List Nat → JsonResult) (data : List Nat) : Bool :=
  if data.length < 4 then false
  else
    let sigLen := beU32ToNat (data.take 4)
    if data.length < 4 + sigLen then false
    else
      match jsonLoads (data.drop (4 + sigLen)) with
      | JsonResult.ok _ => true
      | _ => false

end RendezvousClient

/-- C10 counterexample: two datagrams carrying the same descriptor n1
received during the timeout window produce a returned peer list with two
elements of the same node_id — `discover_peers` appends every decoded
descriptor and performs no deduplication by node_id. -/
theorem discover_duplicate_node_ids :
    RendezvousClient.discover_peers parseFixture [frameN1, frameN1] =
      Except.ok [some "n1", some "n1"] ∧
    ¬ ([some "n1", some "n1"] : List (Option String)).Nodup := by
  constructor
  · rfl
  · decide

/-- C10 amended: the discover subcommand returns one entry per successfully
decoded datagram, in arrival order and without deduplication: whenever the
loop completes (no UTF-8 decoding abort), the length of the returned list
equals the number of received datagrams that pass the length checks and
JSON decoding — duplicated node_ids are returned as often as they were
received. -/
theorem discover_no_dedup (jsonLoads : List Nat → JsonResult)
    (datagrams : List (List Nat)) (peers : List (Option String))
    (h : RendezvousClient.discover_peers jsonLoads datagrams = Except.ok peers) :
    peers.length = datagrams.countP (RendezvousClient.decodesOk jsonLoads) := by
  induction datagrams generalizing peers with
  | nil =>
    simp only [RendezvousClient.discover_peers] at h
    cases h
    simp
  | cons data rest ih =>
    simp only [RendezvousClient.discover_peers] at h
    by_cases h1 : data.length < 4
    · rw [if_pos h1] at h
      rw [List.countP_cons_of_neg]
      · exact ih peers h
      · simp [RendezvousClient.decodesOk, h1]
    · rw [if_neg h1] at h
      by_cases h2 : data.length < 4 + beU32ToNat (data.take 4)
      · rw [if_pos h2] at h
        rw [List.countP_cons_of_neg]
        · exact ih peers h
        · simp [RendezvousClient.decodesOk, h1, h2]
      · rw [if_neg h2] at h
        rcases h3 : jsonLoads (data.drop (4 + beU32ToNat (data.take 4))) with _ | _ | nodeId
        · rw [h3] at h
          cases h
        · rw [h3] at h
          rw [List.countP_cons_of_neg]
          · exact ih peers h
          · simp [RendezvousClient.decodesOk, h1, h2, h3]
        · rw [h3] at h
          rcases hrest : RendezvousClient.discover_peers jsonLoads rest with e | prev
          · rw [hrest] at h
            cases h
          · rw [hrest] at h
            simp only [Except.map] at h
            cases h
            rw [List.countP_cons_of_pos]
            · simp [ih prev hrest]
            · simp [RendezvousClient.decodesOk, h1, h2, h3]

/-- Witness for the amended C10 at the duplicated-frame input: the loop
completes with a 2-element list, matching the 2 decodable datagrams, and
both entries carry node_id n1. -/
theorem discover_no_dedup_witness :
    RendezvousClient.discover_peers parseFixture [frameN1, frameN1] =
      Except.ok [some "n1", some "n1"] ∧
    ([some "n1", some "n1"] : List (Option String)).length =
      List.countP (RendezvousClient.decodesOk parseFixture) [frameN1, frameN1] :=
  ⟨rfl,
   discover_no_dedup parseFixture [frameN1, frameN1] [some "n1", some "n1"] rfl⟩
